import Mathlib

/-
Verification of the lesson-summary transcription server.

The definitions below are a shallow embedding of src/transcribe_server.py.
External collaborators (the speech-to-text engine, the clock, strftime)
are passed in as parameters; the filesystem and the transcripts directory
are explicit state.  Components of the repository that are described in
spec.md but whose code is not under src/ (the key-point extractor, the
language detector and the workflow orchestrator) are modelled from the
spec, as marked on their doc comments.
-/

/-- A file in the transcripts directory: name, content, modification time. -/
structure TFile where
  name : String
  content : String
  mtime : Nat
  deriving DecidableEq

/-- The speech-to-text engine (model.transcribe): given the model handle and a
path it either returns the list of segment texts or raises (Except.error). -/
abbrev Engine := Nat → String → Except String (List String)

/-- Process state of the MCP server: the long-lived model handle created at
module load (line 20), how many times a model was loaded, which input paths
exist on disk, the transcripts directory, and a trace of the model handle used
by each engine invocation. -/
structure ServerState where
  modelHandle : Nat
  loadCount : Nat
  fsPaths : List String
  transcripts : List TFile
  engineCalls : List Nat
  deriving DecidableEq

/-- TRANSCRIPTS_DIR = Path("transcripts")  (line 23). -/
def TRANSCRIPTS_DIR : String := "transcripts"

/-- open(path, "w") followed by write: overwrite an existing entry of the
same name or append a new one, stamping the current time. -/
def writeFile (files : List TFile) (nm content : String) (now : Nat) : List TFile :=
  if files.any (fun f => f.name == nm) then
    files.map (fun f => if f.name == nm then ⟨nm, content, now⟩ else f)
  else
    files ++ [⟨nm, content, now⟩]

/-- Python slicing t[:n] over code points. -/
def strTake (s : String) (n : Nat) : String := String.mk (s.data.take n)

/-- The transcript preview of line 71: transcript_text[:200] with "..."
appended (unconditionally, as written in the source). -/
def previewOf (t : String) : String := strTake t 200 ++ "..."

/-- Lines 52-54: filename = f"{date_str}_{student_name}{topic_part}.txt",
where topic_part is "_" + topic when the topic is nonempty. -/
def lessonFilename (dateStr studentName lessonTopic : String) : String :=
  dateStr ++ "_" ++ studentName ++ (if lessonTopic.isEmpty then "" else "_" ++ lessonTopic) ++ ".txt"

/-- The success message of lines 61-71, including the preview. -/
def successMessage (transcriptPath studentName lessonTopic transcriptText : String) : String :=
  "Transcription complete!\n\nSaved to: " ++ transcriptPath ++ "\nStudent: " ++ studentName
    ++ "\nTopic: " ++ (if lessonTopic.isEmpty then "Not specified" else lessonTopic)
    ++ "\n\nYou can now process this transcript with:\npython -m src.cli process " ++ transcriptPath
    ++ "\n\nTranscript preview (first 200 chars):\n" ++ previewOf transcriptText

/-- transcribe_lesson (lines 28-74).  dateStr models datetime.now().strftime,
now models the write timestamp.  The try/except around the engine call turns
any engine fault into the "Error during transcription:" string. -/
def transcribe_lesson (engine : Engine) (dateStr : String) (now : Nat) (s : ServerState)
    (filePath studentName lessonTopic : String) : ServerState × String :=
  if s.fsPaths.contains filePath then
    let s1 : ServerState := { s with engineCalls := s.engineCalls ++ [s.modelHandle] }
    match engine s.modelHandle filePath with
    | Except.error e => (s1, "Error during transcription: " ++ e)
    | Except.ok segs =>
      let transcriptText := String.intercalate " " segs
      let filename := lessonFilename dateStr studentName lessonTopic
      let transcriptPath := TRANSCRIPTS_DIR ++ "/" ++ filename
      ({ s1 with transcripts := writeFile s1.transcripts filename transcriptText now },
        successMessage transcriptPath studentName lessonTopic transcriptText)
  else
    (s, "Error: File not found at " ++ filePath)

/-- transcribe_video (lines 78-97). -/
def transcribe_video (engine : Engine) (s : ServerState) (filePath : String) :
    ServerState × String :=
  if s.fsPaths.contains filePath then
    let s1 : ServerState := { s with engineCalls := s.engineCalls ++ [s.modelHandle] }
    match engine s.modelHandle filePath with
    | Except.error e => (s1, "Error during transcription: " ++ e)
    | Except.ok segs => (s1, String.intercalate " " segs)
  else
    (s, "Error: File not found at " ++ filePath)

/-- Ordering used by list_transcripts: sorted(key=getmtime, reverse=True),
i.e. a before b when the mtime of b is at most the mtime of a. -/
def mtimeGe (a b : TFile) : Prop := b.mtime ≤ a.mtime

instance : DecidableRel mtimeGe := fun a b => Nat.decLe b.mtime a.mtime

instance : IsTotal TFile mtimeGe := ⟨fun a b => Nat.le_total b.mtime a.mtime⟩

instance : IsTrans TFile mtimeGe := ⟨fun _ _ _ hab hbc => Nat.le_trans hbc hab⟩

/-- The reverse-by-mtime sort of line 109. -/
def sortByMtimeDesc (l : List TFile) : List TFile := List.insertionSort mtimeGe l

/-- glob("*.txt") of line 109: a file name whose code points end in ".txt"
(structural suffix test over the character list). -/
def isTxtName (nm : String) : Bool := List.isSuffixOf ".txt".data nm.data

/-- The fixed message of line 112. -/
def noTranscriptsMsg : String := "No transcript files found in the transcripts directory."

/-- One formatted line of the listing (line 117); fmt models strftime. -/
def transcriptLine (fmt : Nat → String) (f : TFile) : String :=
  "- " ++ f.name ++ " (modified: " ++ fmt f.mtime ++ ")\n"

/-- The entries the listing shows: the .txt files sorted newest-first, first 10. -/
def listedTranscripts (files : List TFile) : List TFile :=
  (sortByMtimeDesc (files.filter (fun f => isTxtName f.name))).take 10

/-- list_transcripts (lines 101-122). -/
def list_transcripts (fmt : Nat → String) (files : List TFile) : String :=
  let transcriptFiles := sortByMtimeDesc (files.filter (fun f => isTxtName f.name))
  if transcriptFiles.isEmpty then
    noTranscriptsMsg
  else
    "Recent transcript files:\n\n" ++ String.join ((transcriptFiles.take 10).map (transcriptLine fmt))

/-- Outcome of one MCP tool invocation as the process sees it: the handler
returns its string to the framework (normal), or the process would abort with
a diagnostic and an exit code.  The source never calls sys.exit, so the
embedded handlers only ever produce normal outcomes. -/
inductive Outcome where
  | normal (result : String)
  | abort (diagnostic : String) (exitCode : Nat)
  deriving DecidableEq

def Outcome.isAbort : Outcome → Bool
  | Outcome.normal _ => false
  | Outcome.abort _ _ => true

/-- Invoking the transcribe_lesson tool: the handler body runs and its string
is returned to the MCP framework; no exit path exists in the source. -/
def invokeLesson (engine : Engine) (dateStr : String) (now : Nat) (s : ServerState)
    (filePath studentName lessonTopic : String) : ServerState × Outcome :=
  let r := transcribe_lesson engine dateStr now s filePath studentName lessonTopic
  (r.1, Outcome.normal r.2)

/-- Invoking the transcribe_video tool. -/
def invokeVideo (engine : Engine) (s : ServerState) (filePath : String) : ServerState × Outcome :=
  let r := transcribe_video engine s filePath
  (r.1, Outcome.normal r.2)

/-- One request to the MCP server. -/
inductive Request where
  | lesson (dateStr : String) (now : Nat) (filePath studentName lessonTopic : String)
  | video (filePath : String)
  | listT
  deriving DecidableEq

/-- Dispatch of one request to its tool handler. -/
def handle (engine : Engine) (fmt : Nat → String) (s : ServerState) : Request → ServerState × String
  | Request.lesson d n p st t => transcribe_lesson engine d n s p st t
  | Request.video p => transcribe_video engine s p
  | Request.listT => (s, list_transcripts fmt s.transcripts)

/-- Run a whole request sequence, threading the server state. -/
def execAll (engine : Engine) (fmt : Nat → String) : ServerState → List Request → ServerState
  | s, [] => s
  | s, r :: rs => execAll engine fmt (handle engine fmt s r).1 rs

/-- Process start (lines 14-24): the model is loaded exactly once, before any
request is served, so the load count is 1 and no engine call has happened. -/
def initState (h : Nat) (fs : List String) (tr : List TFile) : ServerState :=
  { modelHandle := h, loadCount := 1, fsPaths := fs, transcripts := tr, engineCalls := [] }

/-- An engine that always succeeds with two segments. -/
def okEngine : Engine := fun _ _ => Except.ok ["Hello", "world"]

/-- An engine that always raises. -/
def errEngine : Engine := fun _ _ => Except.error "boom"

/-- A concrete server state with two existing input files. -/
def demoState : ServerState :=
  { modelHandle := 7, loadCount := 1, fsPaths := ["lessons/a.mp4", "lessons/b.mp4"],
    transcripts := [], engineCalls := [] }

/-- Modelled from the spec: the tokens of a line, whitespace-separated with
empty pieces dropped (Python line.split()).  The extractor itself is not
under src/. -/
def pyTokens (l : String) : List String :=
  (l.split Char.isWhitespace).filter (fun t => !t.isEmpty)

/-- Modelled from the spec: a bracket-prefixed line (timestamp marker). -/
def isBracketLine (l : String) : Bool :=
  match l.data with
  | [] => false
  | c :: _ => c == '['

/-- Modelled from the spec: the filter of the key-point extractor — discard
blank lines, lines shorter than 20 characters, bracket-prefixed lines, and
lines with fewer than 3 whitespace-separated tokens. -/
def keepLine (l : String) : Bool :=
  !l.isEmpty && decide (20 ≤ l.length) && !isBracketLine l && decide (3 ≤ (pyTokens l).length)

/-- Modelled from the spec: extract_key_points — split into lines, trim each,
keep the lines passing the filter in original order until max_points are
collected.  The extractor code is not under src/. -/
def extract_key_points (text : String) (maxPoints : Nat) : List String :=
  ((((text.splitOn "\n").map String.trim)).filter keepLine).take maxPoints

/-- Modelled from the spec: a character of the CJK Unified Ideographs block. -/
def isCJK (c : Char) : Bool :=
  decide (0x4E00 ≤ c.toNat) && decide (c.toNat ≤ 0x9FFF)

/-- Modelled from the spec: detect_language — the ratio of CJK characters to
non-whitespace characters exceeds 0.3 gives "secondary", else "primary".
The comparison 3 * total < 10 * cjk is the exact rational test cjk / total
> 3 / 10 without division.  The detector code is not under src/. -/
def detect_language (text : String) : String :=
  let nonWs := text.data.filter (fun c => !c.isWhitespace)
  let cjk := nonWs.filter isCJK
  if 3 * nonWs.length < 10 * cjk.length then "secondary" else "primary"

/-- Modelled from the spec: the terminal result of one orchestrator stage —
success, timeout, non-zero exit status, or unexpected fault, each with the
elapsed time observed.  The orchestrator code is not under src/. -/
inductive StageResult where
  | succeeded (elapsed : Nat)
  | timedOut (elapsed : Nat)
  | failedExit (elapsed : Nat)
  | faulted (elapsed : Nat)
  deriving DecidableEq

def StageResult.isSuccess : StageResult → Bool
  | StageResult.succeeded _ => true
  | _ => false

/-- Modelled from the spec: orchestrator-level terminal status — COMPLETE
when every stage succeeded, else ABORTED with the failing stage index. -/
inductive WfStatus where
  | complete
  | aborted (failIndex : Nat)
  deriving DecidableEq

/-- The list of stage indices i, i+1, ..., i+n-1. -/
def idxList : Nat → Nat → List Nat
  | _, 0 => []
  | i, n + 1 => i :: idxList (i + 1) n

/-- Modelled from the spec: the orchestrator runs stages strictly in order;
on the first non-success it halts, reporting that stage index, and no later
stage executes.  Returns the terminal status and the list of executed stage
indices.  The first argument is the index of the next stage. -/
def runStages : Nat → List StageResult → WfStatus × List Nat
  | _, [] => (WfStatus.complete, [])
  | i, r :: rest =>
    if r.isSuccess then
      ((runStages (i + 1) rest).1, i :: (runStages (i + 1) rest).2)
    else
      (WfStatus.aborted i, [i])

/-- Claim C4, counterexample: the preview of line 71 appends "..." even when
no truncation occurred — "hi" has length at most 200 yet is not rendered
unchanged. -/
theorem c4_counterexample :
    ("hi".length ≤ 200) ∧ previewOf "hi" ≠ "hi" ∧ previewOf "hi" = "hi..." :=
  ⟨by decide, by decide, by decide⟩

/-- Claim C4 (amended): the transcript preview renders the first
min(length, 200) characters of the transcript and appends "..."
unconditionally, so its length is always min(length, 200) + 3 — exactly 203
for a transcript longer than 200 characters, but a transcript of length at
most 200 also receives the ellipsis instead of being rendered unchanged. -/
theorem c4_preview_amended (t : String) :
    (previewOf t).length = min t.length 200 + 3
    ∧ ∃ u, previewOf t = u ++ "..." := by
  constructor
  · show (strTake t 200 ++ "...").length = _
    rw [String.length_append]
    have h1 : (strTake t 200).length = min 200 t.length := by
      have hs : (strTake t 200).length = (t.data.take 200).length := rfl
      rw [hs, List.length_take]
      rfl
    have h2 : ("...").length = 3 := rfl
    rw [h1, h2, Nat.min_comm]
  · exact ⟨strTake t 200, rfl⟩

/-- Claim C5: extract_key_points returns at most maxPoints items, each at
least 20 characters long and with at least 3 whitespace-separated tokens,
and the items form a sublist of the trimmed input lines, hence appear in
original line order. -/
theorem c5_extract_key_points (text : String) (n : Nat) :
    (extract_key_points text n).length ≤ n
    ∧ (extract_key_points text n).all
        (fun l => decide (20 ≤ l.length) && decide (3 ≤ (pyTokens l).length)) = true
    ∧ List.Sublist (extract_key_points text n) ((text.splitOn "\n").map String.trim) := by
  refine ⟨List.length_take_le n _, ?_, (List.take_sublist n _).trans (List.filter_sublist _)⟩
  rw [List.all_eq_true]
  intro l hl
  have hmem := List.mem_of_mem_take hl
  have hk := (List.mem_filter.mp hmem).2
  simp only [keepLine, Bool.and_eq_true, decide_eq_true_eq] at hk
  simp only [Bool.and_eq_true, decide_eq_true_eq]
  exact ⟨hk.1.1.2, hk.2⟩

/-- Claim C6: detect_language is a total deterministic function into the two
classes; a CJK ratio of exactly 0.3 (10 times the CJK count equal to 3 times
the non-whitespace count) classifies as "primary", and all-whitespace or
empty text classifies as "primary". -/
theorem c6_detect_language (text : String) :
    (detect_language text = "primary" ∨ detect_language text = "secondary")
    ∧ (10 * (((text.data.filter (fun c => !c.isWhitespace)).filter isCJK).length)
         = 3 * ((text.data.filter (fun c => !c.isWhitespace)).length)
        → detect_language text = "primary")
    ∧ (text.data.all Char.isWhitespace = true → detect_language text = "primary") := by
  have hshow : detect_language text =
      (if 3 * ((text.data.filter (fun c => !c.isWhitespace)).length)
          < 10 * (((text.data.filter (fun c => !c.isWhitespace)).filter isCJK).length)
        then "secondary" else "primary") := rfl
  refine ⟨?_, ?_, ?_⟩
  · by_cases h : 3 * ((text.data.filter (fun c => !c.isWhitespace)).length)
        < 10 * (((text.data.filter (fun c => !c.isWhitespace)).filter isCJK).length)
    · right
      rw [hshow, if_pos h]
    · left
      rw [hshow, if_neg h]
  · intro h
    have hn : ¬ (3 * ((text.data.filter (fun c => !c.isWhitespace)).length)
        < 10 * (((text.data.filter (fun c => !c.isWhitespace)).filter isCJK).length)) := by
      omega
    rw [hshow, if_neg hn]
  · intro h
    have h0 : text.data.filter (fun c => !c.isWhitespace) = [] := by
      apply List.filter_eq_nil_iff.mpr
      intro a ha
      have := List.all_eq_true.mp h a ha
      simp [this]
    rw [hshow, h0]
    simp

/-- Witness for C6: a text of 3 CJK and 7 Latin characters has ratio exactly
0.3 and is classified "primary"; all-whitespace text is classified "primary". -/
theorem c6_detect_language_witness :
    detect_language "中中中abcdefg" = "primary" ∧ detect_language "   " = "primary" :=
  ⟨(c6_detect_language "中中中abcdefg").2.1 (by decide),
   (c6_detect_language "   ").2.2 (by decide)⟩

/-- Claim C2, counterexample: on a nonexistent input path both tools complete
normally, returning the diagnostic as an ordinary result string to the MCP
framework; there is no abort and no non-zero process exit. -/
theorem c2_counterexample :
    (invokeLesson okEngine "20260101" 0 demoState "missing.mp4" "Sam" "").2
      = Outcome.normal "Error: File not found at missing.mp4"
    ∧ ((invokeLesson okEngine "20260101" 0 demoState "missing.mp4" "Sam" "").2).isAbort = false
    ∧ (invokeVideo okEngine demoState "missing.mp4").2
      = Outcome.normal "Error: File not found at missing.mp4"
    ∧ ((invokeVideo okEngine demoState "missing.mp4").2).isAbort = false := by
  refine ⟨by decide, by decide, by decide, by decide⟩

/-- Claim C2 (amended): for every input path that does not exist, the tool
invocation completes normally, returning the printed diagnostic
"Error: File not found at path" as its result string; it does not abort the
process and no non-zero exit occurs. -/
theorem c2_missing_amended (engine : Engine) (dateStr : String) (now : Nat) (s : ServerState)
    (filePath studentName lessonTopic : String)
    (h : s.fsPaths.contains filePath = false) :
    (invokeLesson engine dateStr now s filePath studentName lessonTopic).2
      = Outcome.normal ("Error: File not found at " ++ filePath)
    ∧ ((invokeLesson engine dateStr now s filePath studentName lessonTopic).2).isAbort = false
    ∧ (invokeVideo engine s filePath).2 = Outcome.normal ("Error: File not found at " ++ filePath)
    ∧ ((invokeVideo engine s filePath).2).isAbort = false := by
  have hm : filePath ∉ s.fsPaths := by simpa using h
  refine ⟨?_, ?_, ?_, ?_⟩ <;>
    simp [invokeLesson, invokeVideo, transcribe_lesson, transcribe_video, hm, Outcome.isAbort]

/-- Witness for the amended C2 at a concrete missing path. -/
theorem c2_missing_amended_witness :
    (invokeLesson okEngine "20260101" 0 demoState "gone.mp4" "Sam" "").2
      = Outcome.normal ("Error: File not found at " ++ "gone.mp4")
    ∧ ((invokeLesson okEngine "20260101" 0 demoState "gone.mp4" "Sam" "").2).isAbort = false
    ∧ (invokeVideo okEngine demoState "gone.mp4").2
      = Outcome.normal ("Error: File not found at " ++ "gone.mp4")
    ∧ ((invokeVideo okEngine demoState "gone.mp4").2).isAbort = false :=
  c2_missing_amended okEngine "20260101" 0 demoState "gone.mp4" "Sam" "" (by decide)

/-- Claim C3, counterexample: two successful transcriptions of the very same
source file, differing only in the student name, persist transcripts under
different file names — so the persisted name is not derived from the source
file base name (it is derived from date, student and topic instead). -/
theorem c3_counterexample :
    ((transcribe_lesson okEngine "20260101" 0 demoState "lessons/a.mp4" "Claire" "").1.transcripts.map
        TFile.name)
      ≠ ((transcribe_lesson okEngine "20260101" 0 demoState "lessons/a.mp4" "Leon" "").1.transcripts.map
        TFile.name) := by
  decide

/-- Claim C3 (amended): for every successful transcription the persisted
transcript name is derived deterministically from the current date, the
student name and the optional lesson topic — date_student[_topic].txt — not
from the source file base name, and the file is written under the fixed
working-output directory "transcripts". -/
theorem c3_naming_amended (engine : Engine) (dateStr : String) (now : Nat) (s : ServerState)
    (filePath studentName lessonTopic : String) (segs : List String)
    (hex : s.fsPaths.contains filePath = true)
    (hok : engine s.modelHandle filePath = Except.ok segs) :
    (transcribe_lesson engine dateStr now s filePath studentName lessonTopic).1.transcripts
      = writeFile s.transcripts (lessonFilename dateStr studentName lessonTopic)
          (String.intercalate " " segs) now
    ∧ (transcribe_lesson engine dateStr now s filePath studentName lessonTopic).2
      = successMessage (TRANSCRIPTS_DIR ++ "/" ++ lessonFilename dateStr studentName lessonTopic)
          studentName lessonTopic (String.intercalate " " segs)
    ∧ lessonFilename dateStr studentName lessonTopic
      = dateStr ++ "_" ++ studentName
          ++ (if lessonTopic.isEmpty then "" else "_" ++ lessonTopic) ++ ".txt"
    ∧ TRANSCRIPTS_DIR = "transcripts" := by
  have hm : filePath ∈ s.fsPaths := by simpa using hex
  refine ⟨?_, ?_, rfl, rfl⟩ <;> simp [transcribe_lesson, hm, hok]

/-- Witness for the amended C3 at a concrete successful transcription. -/
theorem c3_naming_amended_witness :
    (transcribe_lesson okEngine "20260101" 0 demoState "lessons/b.mp4" "Leon" "Grammar").1.transcripts
      = writeFile demoState.transcripts (lessonFilename "20260101" "Leon" "Grammar")
          (String.intercalate " " ["Hello", "world"]) 0
    ∧ (transcribe_lesson okEngine "20260101" 0 demoState "lessons/b.mp4" "Leon" "Grammar").2
      = successMessage (TRANSCRIPTS_DIR ++ "/" ++ lessonFilename "20260101" "Leon" "Grammar")
          "Leon" "Grammar" (String.intercalate " " ["Hello", "world"]) :=
  ⟨(c3_naming_amended okEngine "20260101" 0 demoState "lessons/b.mp4" "Leon" "Grammar"
      ["Hello", "world"] (by decide) rfl).1,
   (c3_naming_amended okEngine "20260101" 0 demoState "lessons/b.mp4" "Leon" "Grammar"
      ["Hello", "world"] (by decide) rfl).2.1⟩

/-- Claim C8: both transcription tools are total with respect to engine
faults — whenever the engine raises, the tool returns the string
"Error during transcription: " followed by the fault text, and no exception
propagates (the embedded handlers are total functions into strings). -/
theorem c8_engine_faults (engine : Engine) (dateStr : String) (now : Nat) (s : ServerState)
    (filePath studentName lessonTopic e : String)
    (hex : s.fsPaths.contains filePath = true)
    (herr : engine s.modelHandle filePath = Except.error e) :
    (transcribe_lesson engine dateStr now s filePath studentName lessonTopic).2
      = "Error during transcription: " ++ e
    ∧ (transcribe_video engine s filePath).2 = "Error during transcription: " ++ e := by
  have hm : filePath ∈ s.fsPaths := by simpa using hex
  constructor
  · simp [transcribe_lesson, hm, herr]
  · simp [transcribe_video, hm, herr]

/-- Witness for C8 with an engine that always raises "boom". -/
theorem c8_engine_faults_witness :
    (transcribe_lesson errEngine "20260101" 0 demoState "lessons/a.mp4" "Claire" "").2
      = "Error during transcription: " ++ "boom"
    ∧ (transcribe_video errEngine demoState "lessons/a.mp4").2
      = "Error during transcription: " ++ "boom" :=
  c8_engine_faults errEngine "20260101" 0 demoState "lessons/a.mp4" "Claire" "" "boom"
    (by decide) rfl

/-- Claim C9: on a nonexistent input path, transcribe_lesson returns the
"Error: File not found" message, the whole state is unchanged — in
particular the transcripts directory is untouched and the engine-call trace
is unchanged, so the model was not invoked. -/
theorem c9_missing_input (engine : Engine) (dateStr : String) (now : Nat) (s : ServerState)
    (filePath studentName lessonTopic : String)
    (h : s.fsPaths.contains filePath = false) :
    transcribe_lesson engine dateStr now s filePath studentName lessonTopic
      = (s, "Error: File not found at " ++ filePath)
    ∧ (transcribe_lesson engine dateStr now s filePath studentName lessonTopic).1.transcripts
      = s.transcripts
    ∧ (transcribe_lesson engine dateStr now s filePath studentName lessonTopic).1.engineCalls
      = s.engineCalls := by
  have hm : filePath ∉ s.fsPaths := by simpa using h
  have he : transcribe_lesson engine dateStr now s filePath studentName lessonTopic
      = (s, "Error: File not found at " ++ filePath) := by
    simp [transcribe_lesson, hm]
  exact ⟨he, by rw [he], by rw [he]⟩

/-- Witness for C9 at a concrete missing path. -/
theorem c9_missing_input_witness :
    transcribe_lesson okEngine "20260101" 0 demoState "nope.mp4" "Sam" ""
      = (demoState, "Error: File not found at " ++ "nope.mp4")
    ∧ (transcribe_lesson okEngine "20260101" 0 demoState "nope.mp4" "Sam" "").1.transcripts
      = demoState.transcripts
    ∧ (transcribe_lesson okEngine "20260101" 0 demoState "nope.mp4" "Sam" "").1.engineCalls
      = demoState.engineCalls :=
  c9_missing_input okEngine "20260101" 0 demoState "nope.mp4" "Sam" "" (by decide)

/-- Handling any single request leaves the model handle and the load count
unchanged and appends at most the current model handle to the engine-call
trace: no handler ever loads a model or uses a different handle. -/
theorem handle_state (engine : Engine) (fmt : Nat → String) (s : ServerState) (r : Request) :
    (handle engine fmt s r).1.modelHandle = s.modelHandle
    ∧ (handle engine fmt s r).1.loadCount = s.loadCount
    ∧ ((handle engine fmt s r).1.engineCalls = s.engineCalls
        ∨ (handle engine fmt s r).1.engineCalls = s.engineCalls ++ [s.modelHandle]) := by
  cases r with
  | lesson d n p st t =>
    by_cases hm : p ∈ s.fsPaths
    · cases he : engine s.modelHandle p with
      | error e => simp [handle, transcribe_lesson, hm, he]
      | ok segs => simp [handle, transcribe_lesson, hm, he]
    · simp [handle, transcribe_lesson, hm]
  | video p =>
    by_cases hm : p ∈ s.fsPaths
    · cases he : engine s.modelHandle p with
      | error e => simp [handle, transcribe_video, hm, he]
      | ok segs => simp [handle, transcribe_video, hm, he]
    · simp [handle, transcribe_video, hm]
  | listT => simp [handle]

/-- The per-request invariant of the model handle, propagated over a whole
request sequence. -/
theorem execAll_inv (engine : Engine) (fmt : Nat → String) (hdl : Nat) (reqs : List Request) :
    ∀ s : ServerState, s.modelHandle = hdl → s.loadCount = 1 →
      s.engineCalls.all (fun c => c == hdl) = true →
      (execAll engine fmt s reqs).modelHandle = hdl
      ∧ (execAll engine fmt s reqs).loadCount = 1
      ∧ (execAll engine fmt s reqs).engineCalls.all (fun c => c == hdl) = true := by
  induction reqs with
  | nil =>
    intro s h1 h2 h3
    exact ⟨h1, h2, h3⟩
  | cons r rs ih =>
    intro s h1 h2 h3
    have hs := handle_state engine fmt s r
    have hcalls : (handle engine fmt s r).1.engineCalls.all (fun c => c == hdl) = true := by
      rcases hs.2.2 with hE | hE
      · rw [hE]
        exact h3
      · rw [hE, List.all_append, h3]
        simp [h1]
    exact ih (handle engine fmt s r).1 (hs.1.trans h1) (hs.2.1.trans h2) hcalls

/-- Claim C1: starting from process start (model loaded exactly once, handle
h), after any sequence of tool requests the model handle is still h, the
load count is still exactly 1 (the model is never reloaded per request), and
every engine invocation recorded by transcribe_lesson or transcribe_video
used that same handle h. -/
theorem c1_single_model (engine : Engine) (fmt : Nat → String) (h : Nat) (fs : List String)
    (tr : List TFile) (reqs : List Request) :
    (execAll engine fmt (initState h fs tr) reqs).modelHandle = h
    ∧ (execAll engine fmt (initState h fs tr) reqs).loadCount = 1
    ∧ (execAll engine fmt (initState h fs tr) reqs).engineCalls.all (fun c => c == h) = true :=
  execAll_inv engine fmt h reqs (initState h fs tr) rfl rfl rfl

/-- Every index in idxList i n is below i + n. -/
theorem mem_idxList_lt (n : Nat) : ∀ i j : Nat, j ∈ idxList i n → j < i + n := by
  induction n with
  | zero =>
    intro i j hj
    simp [idxList] at hj
  | succ m ih =>
    intro i j hj
    simp only [idxList, List.mem_cons] at hj
    rcases hj with rfl | hj
    · omega
    · have := ih (i + 1) j hj
      omega

/-- If the first k stages succeed and stage k does not, the run starting at
index i aborts at i + k having executed exactly the indices i, ..., i + k. -/
theorem runStages_aborted (rs : List StageResult) :
    ∀ (k i : Nat) (r : StageResult),
      (rs.take k).all StageResult.isSuccess = true → rs[k]? = some r →
      r.isSuccess = false →
      runStages i rs = (WfStatus.aborted (i + k), idxList i (k + 1)) := by
  induction rs with
  | nil =>
    intro k i r _ hk _
    simp at hk
  | cons a rest ih =>
    intro k i r htake hk hfail
    cases k with
    | zero =>
      have ha : a = r := by simpa using hk
      subst ha
      simp [runStages, hfail, idxList]
    | succ m =>
      have hsplit : a.isSuccess = true ∧ (rest.take m).all StageResult.isSuccess = true := by
        simpa [List.take_succ_cons] using htake
      have hk2 : rest[m]? = some r := by simpa using hk
      have hrec := ih m (i + 1) r hsplit.2 hk2 hfail
      have harith : i + 1 + m = i + (m + 1) := by omega
      simp only [runStages, hsplit.1, if_true, hrec, harith, idxList]

/-- Claim C7: if the stages before index k all succeed and stage k fails
(timeout, non-zero exit, or fault), the orchestrator reports ABORTED with
failing index exactly k, and the executed stages are exactly 0..k — every
executed index is at most k, so stages k+1..N never run. -/
theorem c7_failfast (rs : List StageResult) (k : Nat) (r : StageResult)
    (htake : (rs.take k).all StageResult.isSuccess = true)
    (hk : rs[k]? = some r) (hfail : r.isSuccess = false) :
    (runStages 0 rs).1 = WfStatus.aborted k
    ∧ (runStages 0 rs).2 = idxList 0 (k + 1)
    ∧ (runStages 0 rs).2.all (fun j => decide (j ≤ k)) = true := by
  have h0 : runStages 0 rs = (WfStatus.aborted k, idxList 0 (k + 1)) := by
    have h := runStages_aborted rs k 0 r htake hk hfail
    simpa using h
  refine ⟨by rw [h0], by rw [h0], ?_⟩
  rw [h0]
  rw [List.all_eq_true]
  intro j hj
  have hlt := mem_idxList_lt (k + 1) 0 j hj
  simp only [decide_eq_true_eq]
  omega

/-- Witness for C7: a three-stage run whose second stage times out aborts at
index 1 and executes only stages 0 and 1. -/
theorem c7_failfast_witness :
    (runStages 0 [StageResult.succeeded 1, StageResult.timedOut 5, StageResult.succeeded 2]).1
      = WfStatus.aborted 1
    ∧ (runStages 0 [StageResult.succeeded 1, StageResult.timedOut 5, StageResult.succeeded 2]).2
      = idxList 0 2
    ∧ (runStages 0 [StageResult.succeeded 1, StageResult.timedOut 5,
        StageResult.succeeded 2]).2.all (fun j => decide (j ≤ 1)) = true :=
  c7_failfast [StageResult.succeeded 1, StageResult.timedOut 5, StageResult.succeeded 2] 1
    (StageResult.timedOut 5) (by decide) (by decide) (by decide)

/-- Claim C10: the transcript listing shows at most 10 entries, in
non-increasing modification-time order (most recent first), renders exactly
those entries when any .txt file exists, and returns the fixed no-files
message when the directory holds no .txt file. -/
theorem c10_list_transcripts (fmt : Nat → String) (files : List TFile) :
    (listedTranscripts files).length ≤ 10
    ∧ List.Sorted mtimeGe (listedTranscripts files)
    ∧ (files.filter (fun f => isTxtName f.name) = [] →
        list_transcripts fmt files = noTranscriptsMsg)
    ∧ (files.filter (fun f => isTxtName f.name) ≠ [] →
        list_transcripts fmt files
          = "Recent transcript files:\n\n"
            ++ String.join ((listedTranscripts files).map (transcriptLine fmt))) := by
  refine ⟨List.length_take_le 10 _, ?_, ?_, ?_⟩
  · exact List.Pairwise.sublist (List.take_sublist 10 _)
      (List.sorted_insertionSort mtimeGe (files.filter (fun f => isTxtName f.name)))
  · intro h0
    have hs : sortByMtimeDesc (files.filter (fun f => isTxtName f.name)) = [] := by
      rw [h0]
      rfl
    simp [list_transcripts, hs]
  · intro hne
    have hsne : sortByMtimeDesc (files.filter (fun f => isTxtName f.name)) ≠ [] := by
      intro hs
      apply hne
      have hperm := List.perm_insertionSort mtimeGe (files.filter (fun f => isTxtName f.name))
      have hs2 : List.insertionSort mtimeGe (files.filter (fun f => isTxtName f.name)) = [] := hs
      rw [hs2] at hperm
      exact (hperm.symm).eq_nil
    have hempty : (sortByMtimeDesc (files.filter (fun f => isTxtName f.name))).isEmpty = false := by
      apply Bool.eq_false_iff.mpr
      intro hb
      exact hsne (List.isEmpty_iff.mp hb)
    simp [list_transcripts, listedTranscripts, hempty]

/-- Witness for C10: the empty directory yields the fixed message, and a
two-file directory yields the rendered listing. -/
theorem c10_list_transcripts_witness :
    list_transcripts (fun _ => "") [] = noTranscriptsMsg
    ∧ list_transcripts (fun _ => "") [⟨"a.txt", "x", 5⟩, ⟨"b.txt", "y", 9⟩]
      = "Recent transcript files:\n\n"
        ++ String.join ((listedTranscripts [⟨"a.txt", "x", 5⟩, ⟨"b.txt", "y", 9⟩]).map
            (transcriptLine (fun _ => ""))) :=
  ⟨(c10_list_transcripts (fun _ => "") []).2.2.1 rfl,
   (c10_list_transcripts (fun _ => "") [⟨"a.txt", "x", 5⟩, ⟨"b.txt", "y", 9⟩]).2.2.2
     (by decide)⟩
